import Mathlib

/-!
# globalMonitoring: request metrics for RPC handlers

A shallow embedding of `globalMonitoring/prometheus.go`.

* The package globals `metrics` (three collector pointers) together with the
  backend registry and the output of the standard logger form the explicit
  state `Process`.  A nil collector pointer is `none`.
* `registerMetrics` runs under the package mutex `mu`, so it is one atomic
  step on `Process`.
* A handler is a function of `(ctx, req, resp)` giving the mutated response
  and either the returned error or a Go panic.  Handlers do not touch the
  unexported package globals.
* The value `timer.ObserveDuration()` hands to the observer (elapsed seconds
  since `prometheus.NewTimer`) is an input `v : ℚ` of every invocation;
  arithmetic on it is exact.
-/

namespace globalMonitoring

/-! ## Options -/

/-- Go `type Options struct`: options related to metrics scraping and export. -/
structure Options where
  Name : String
  Version : String
  ID : String
  MetricsPrefix : String
  MetricsLabelPrefix : String
deriving DecidableEq, Repr

/-- Go `type Option func(*Options)`; the pointer argument is threaded as a value.
(The Go name `Option` is taken by the Lean core type.) -/
abbrev OptionFunc := Options → Options

/-- Go `ServiceName`: sets up the name of the service. -/
def ServiceName (name : String) : OptionFunc :=
  fun opts => { opts with Name := name }

/-- Go `ServiceVersion`: sets up the current version of the service. -/
def ServiceVersion (version : String) : OptionFunc :=
  fun opts => { opts with Version := version }

/-- Go `ServiceID`: sets up the id of the service. -/
def ServiceID (id : String) : OptionFunc :=
  fun opts => { opts with ID := id }

/-- Go `ServiceMetricsPrefix`: the prefix used for all the metrics exported. -/
def ServiceMetricsPrefix (metricsPrefix : String) : OptionFunc :=
  fun opts => { opts with MetricsPrefix := metricsPrefix }

/-- Go `ServiceMetricsLabelPrefix`: the prefix used for all the labels. -/
def ServiceMetricsLabelPrefix (metricsLabelPrefix : String) : OptionFunc :=
  fun opts => { opts with MetricsLabelPrefix := metricsLabelPrefix }

/-- Go `type metricsHandler struct`. -/
structure metricsHandler where
  options : Options
deriving DecidableEq, Repr

/-! ## The metrics backend (package `prometheus`) -/

/-- Modelled from the spec: a labelled counter collector of the metrics backend
(`*prometheus.CounterVec`): its name, help text, declared label keys and, per
label-value tuple, a monotonically increasing integer. -/
structure CounterVec where
  Name : String
  Help : String
  labelNames : List String
  values : List String → Nat

/-- Modelled from the spec: a labelled summary collector of the metrics backend
(`*prometheus.SummaryVec`): per label-value tuple, the observations recorded,
oldest first. -/
structure SummaryVec where
  Name : String
  Help : String
  labelNames : List String
  observations : List String → List ℚ

/-- Modelled from the spec: a labelled histogram collector of the metrics
backend (`*prometheus.HistogramVec`): per label-value tuple, the observations
recorded, oldest first. -/
structure HistogramVec where
  Name : String
  Help : String
  labelNames : List String
  observations : List String → List ℚ

/-- Modelled from the spec: `prometheus.NewCounterVec(CounterOpts, labelNames)`,
a fresh counter with every label tuple at zero. -/
def NewCounterVec (name help : String) (labelNames : List String) : CounterVec :=
  { Name := name, Help := help, labelNames := labelNames, values := fun _ => 0 }

/-- Modelled from the spec: `prometheus.NewSummaryVec(SummaryOpts, labelNames)`,
a fresh summary without observations. -/
def NewSummaryVec (name help : String) (labelNames : List String) : SummaryVec :=
  { Name := name, Help := help, labelNames := labelNames, observations := fun _ => [] }

/-- Modelled from the spec: `prometheus.NewHistogramVec(HistogramOpts, labelNames)`,
a fresh histogram without observations. -/
def NewHistogramVec (name help : String) (labelNames : List String) : HistogramVec :=
  { Name := name, Help := help, labelNames := labelNames, observations := fun _ => [] }

/-- Panic value of a method call through a nil collector pointer. -/
def nilDereference : String := "invalid memory address or nil pointer dereference"

/-- Panic value of `WithLabelValues` when the number of label values differs
from the number of declared label keys. -/
def inconsistentCardinality : String := "inconsistent label cardinality"

/-- Modelled from the spec: `WithLabelValues(lvs...)` selects the child of a
label-value tuple; the backend panics unless exactly one value per declared
label key is supplied. -/
def WithLabelValues (labelNames lvs : List String) : Except String (List String) :=
  if lvs.length = labelNames.length then .ok lvs else .error inconsistentCardinality

/-- Modelled from the spec: `Counter.Inc()` on the child `child`. -/
def CounterVec.Inc (c : CounterVec) (child : List String) : CounterVec :=
  { c with values := Function.update c.values child (c.values child + 1) }

/-- Modelled from the spec: `Observer.Observe(x)` on the child `child` of a summary. -/
def SummaryVec.Observe (s : SummaryVec) (child : List String) (x : ℚ) : SummaryVec :=
  { s with observations := Function.update s.observations child (s.observations child ++ [x]) }

/-- Modelled from the spec: `Observer.Observe(x)` on the child `child` of a histogram. -/
def HistogramVec.Observe (h : HistogramVec) (child : List String) (x : ℚ) : HistogramVec :=
  { h with observations := Function.update h.observations child (h.observations child ++ [x]) }

/-- Go interface `prometheus.Collector`, implemented by the three collector kinds. -/
inductive Collector where
  | counter (c : CounterVec)
  | summary (s : SummaryVec)
  | histogram (h : HistogramVec)

/-- Kind of a registered collector. -/
inductive Kind where
  | counter
  | summary
  | histogram
deriving DecidableEq, Repr

/-- What a collector describes itself as to the backend registry. -/
structure Desc where
  kind : Kind
  fqName : String
  labelNames : List String
deriving DecidableEq, Repr

/-- Descriptor of a collector. -/
def Collector.Describe : Collector → Desc
  | .counter c => ⟨.counter, c.Name, c.labelNames⟩
  | .summary s => ⟨.summary, s.Name, s.labelNames⟩
  | .histogram h => ⟨.histogram, h.Name, h.labelNames⟩

/-- Errors of `Registerer.Register`: the distinguished
`prometheus.AlreadyRegisteredError` and every other error, each with its text. -/
inductive RegisterError where
  | AlreadyRegisteredError (text : String)
  | other (text : String)
deriving DecidableEq, Repr

/-- Go `err.Error()`. -/
def RegisterError.Error : RegisterError → String
  | .AlreadyRegisteredError text => text
  | .other text => text

/-- Go type assertion `_, ok := err.(prometheus.AlreadyRegisteredError)`. -/
def RegisterError.isAlreadyRegistered : RegisterError → Bool
  | .AlreadyRegisteredError _ => true
  | .other _ => false

/-- A backend registerer over registry states `R`: `Register` gives the new
registry state and the error returned, if any. -/
abbrev Registerer (R : Type) := R → Collector → R × Option RegisterError

/-- Modelled from the spec: a backend registry that rejects a collector whose
name+labels is already registered and accepts every other collector. -/
def Register : Registerer (List Desc) :=
  fun r c =>
    if r.any (fun d => d.fqName = c.Describe.fqName ∧ d.labelNames = c.Describe.labelNames) then
      (r, some (.AlreadyRegisteredError "duplicate metrics collector registration attempted"))
    else
      (r ++ [c.Describe], none)

/-! ## Process state -/

/-- Go `type metricsDef struct`: the definition of the metrics to be exported;
`none` is the nil pointer. -/
structure metricsDef where
  opsCounter : Option CounterVec
  timeCounterSummary : Option SummaryVec
  timeCounterHistogram : Option HistogramVec

/-- Process-wide state: the package variable `metrics`, the state of
`prometheus.DefaultRegisterer` and the lines written by the standard logger. -/
structure Process (R : Type) where
  metrics : metricsDef
  registry : R
  log : List String

/-- Initial process state: no collector constructed, nothing logged. -/
def Process.init {R : Type} (r : R) : Process R :=
  { metrics := ⟨none, none, none⟩, registry := r, log := [] }

/-! ## Collector registry -/

/-- Go `setupCounterVec`: a new counter vector with all the necessary labels. -/
def setupCounterVec (name help metricPrefix labelPrefix : String) : CounterVec :=
  NewCounterVec (metricPrefix ++ name) help
    [labelPrefix ++ "name", labelPrefix ++ "version", labelPrefix ++ "id",
     labelPrefix ++ "endpoint", labelPrefix ++ "status"]

/-- Go `setupSummaryVec`: a new summary vector with all the necessary labels. -/
def setupSummaryVec (name help metricPrefix labelPrefix : String) : SummaryVec :=
  NewSummaryVec (metricPrefix ++ name) help
    [labelPrefix ++ "name", labelPrefix ++ "version", labelPrefix ++ "id",
     labelPrefix ++ "endpoint"]

/-- Go `setupHistogramVec`: a new histogram vector with all the necessary labels. -/
def setupHistogramVec (name help metricPrefix labelPrefix : String) : HistogramVec :=
  NewHistogramVec (metricPrefix ++ name) help
    [labelPrefix ++ "name", labelPrefix ++ "version", labelPrefix ++ "id",
     labelPrefix ++ "endpoint"]

/-- Body of the registration loop of `registerMetrics` for one collector:
`Register` is attempted; an error is never returned to the caller, and a line is
logged exactly when the error is not an `AlreadyRegisteredError` (`!ok`). -/
def registerCollector {R : Type} (reg : Registerer R) (p : Process R) (collector : Collector) :
    Process R :=
  match reg p.registry collector with
  | (r, none) => { p with registry := r }
  | (r, some err) =>
    if !err.isAlreadyRegistered then
      { p with registry := r,
               log := p.log ++ ["Promethus collector already registered: " ++ err.Error] }
    else
      { p with registry := r }

/-- Go `(*metricsHandler).registerMetrics`: creates the collectors that are
still nil and registers all three with the backend. -/
def registerMetrics {R : Type} (reg : Registerer R) (metricPrefix labelPrefix : String)
    (p : Process R) : Process R :=
  let opsCounter :=
    match p.metrics.opsCounter with
    | none => setupCounterVec "request_total"
        "Requests processed, partitioned by endpoint and status" metricPrefix labelPrefix
    | some c => c
  let timeCounterSummary :=
    match p.metrics.timeCounterSummary with
    | none => setupSummaryVec "latency_microseconds"
        "Request latencies in microseconds, partitioned by endpoint" metricPrefix labelPrefix
    | some s => s
  let timeCounterHistogram :=
    match p.metrics.timeCounterHistogram with
    | none => setupHistogramVec "request_duration_seconds"
        "Request time in seconds, partitioned by endpoint" metricPrefix labelPrefix
    | some h => h
  [Collector.counter opsCounter, Collector.summary timeCounterSummary,
    Collector.histogram timeCounterHistogram].foldl (registerCollector reg)
    { p with metrics := ⟨some opsCounter, some timeCounterSummary, some timeCounterHistogram⟩ }

/-- The options loop of `NewMetricsWrapper`: every option is applied in order
to `Options{}`. -/
def applyOptions (opts : List OptionFunc) : Options :=
  opts.foldl (fun options opt => opt options) ⟨"", "", "", "", ""⟩

/-- Go `NewMetricsWrapper`: creates a new metrics handler and registers the
metrics; the handler stands for the method value `handler.metricsWrapper`. -/
def NewMetricsWrapper {R : Type} (reg : Registerer R) (opts : List OptionFunc) (p : Process R) :
    metricsHandler × Process R :=
  let options := applyOptions opts
  let handler : metricsHandler := { options := options }
  (handler, registerMetrics reg handler.options.MetricsPrefix
    handler.options.MetricsLabelPrefix p)

/-! ## Instrumentation wrapper -/

/-- Go interface `server.Request`, by the values of its accessors. -/
structure Request where
  Service : String
  Method : String
  Endpoint : String
  ContentType : String
  Body : String
deriving DecidableEq, Repr

/-- How a Go call of a handler ends: it returns an error value (`none` is
nil) or it panics with a value. -/
inductive Outcome (ε : Type) where
  | returned (err : Option ε)
  | panicked (value : String)
deriving DecidableEq, Repr

/-- Go `server.HandlerFunc`, `func(ctx, req, rsp interface{}) error`: the
response behind `rsp` is mutated in place, so the handler gives the response
after the call together with how the call ended. -/
abbrev HandlerFunc (κ ρ ε : Type) := κ → Request → ρ → ρ × Outcome ε

/-- One call of a wrapped function as seen by its caller and by the process:
the response after the call, how the call ended, and the package variable
`metrics` after the call. -/
structure Invocation (ρ ε : Type) where
  resp : ρ
  outcome : Outcome ε
  metrics : metricsDef

/-- Label values the wrapper passes to the request counter. -/
def counterLabelValues (w : metricsHandler) (endpoint status : String) : List String :=
  [w.options.Name, w.options.Version, w.options.ID, endpoint, status]

/-- Label values the wrapper passes to the latency summary and histogram. -/
def latencyLabelValues (w : metricsHandler) (endpoint : String) : List String :=
  [w.options.Name, w.options.Version, w.options.ID, endpoint]

/-- Go `metrics.opsCounter.WithLabelValues(Name, Version, ID, endpoint, status).Inc()`:
the metrics afterwards and the panic raised, if any. -/
def incOpsCounter (w : metricsHandler) (endpoint status : String) (m : metricsDef) :
    metricsDef × Option String :=
  match m.opsCounter with
  | none => (m, some nilDereference)
  | some c =>
    match WithLabelValues c.labelNames (counterLabelValues w endpoint status) with
    | .error e => (m, some e)
    | .ok child => ({ m with opsCounter := some (c.Inc child) }, none)

/-- The `prometheus.ObserverFunc` closure of `metricsWrapper`, called with the
elapsed seconds `v`: the summary observes `v * 1000000`, then the histogram
observes `v`; gives the metrics afterwards and the panic raised, if any. -/
def observer (w : metricsHandler) (endpoint : String) (v : ℚ) (m : metricsDef) :
    metricsDef × Option String :=
  let us := v * 1000000
  match m.timeCounterSummary with
  | none => (m, some nilDereference)
  | some s =>
    match WithLabelValues s.labelNames (latencyLabelValues w endpoint) with
    | .error e => (m, some e)
    | .ok child =>
      let m1 := { m with timeCounterSummary := some (s.Observe child us) }
      match m1.timeCounterHistogram with
      | none => (m1, some nilDereference)
      | some h =>
        match WithLabelValues h.labelNames (latencyLabelValues w endpoint) with
        | .error e => (m1, some e)
        | .ok child2 => ({ m1 with timeCounterHistogram := some (h.Observe child2 v) }, none)

/-- Go `(*metricsHandler).metricsWrapper`: the function it returns, called
with `(ctx, req, resp)` in a process whose `metrics` variable is `m`, when the
deferred `timer.ObserveDuration()` measures `v` seconds.  The deferred
observation runs on every exit, after the counter update when the handler
returned; a panic of the deferred call replaces an earlier one. -/
def metricsWrapper {κ ρ ε : Type} (w : metricsHandler) (fn : HandlerFunc κ ρ ε) :
    κ → Request → ρ → ℚ → metricsDef → Invocation ρ ε :=
  fun ctx req resp v m =>
    let endpoint := req.Endpoint
    match fn ctx req resp with
    | (resp1, .panicked value) =>
      match observer w endpoint v m with
      | (m1, none) => ⟨resp1, .panicked value, m1⟩
      | (m1, some deferred) => ⟨resp1, .panicked deferred, m1⟩
    | (resp1, .returned err) =>
      let counted :=
        if err.isNone then incOpsCounter w endpoint "success" m
        else incOpsCounter w endpoint "failure" m
      match observer w endpoint v counted.1 with
      | (m2, some deferred) => ⟨resp1, .panicked deferred, m2⟩
      | (m2, none) =>
        match counted.2 with
        | some value => ⟨resp1, .panicked value, m2⟩
        | none => ⟨resp1, .returned err, m2⟩

/-! ## Histories of a process -/

/-- What can happen in a process that uses the package: a call of
`NewMetricsWrapper`, or a call of a wrapped function. -/
inductive Event (κ ρ ε : Type) where
  | construct (opts : List OptionFunc)
  | invoke (w : metricsHandler) (fn : HandlerFunc κ ρ ε) (ctx : κ) (req : Request) (resp : ρ)
      (v : ℚ)

/-- Effect of one event on the process state. -/
def step {R κ ρ ε : Type} (reg : Registerer R) (p : Process R) : Event κ ρ ε → Process R
  | .construct opts => (NewMetricsWrapper reg opts p).2
  | .invoke w fn ctx req resp v =>
    { p with metrics := (metricsWrapper w fn ctx req resp v p.metrics).metrics }

/-- Effect of a history of events, oldest first. -/
def run {R κ ρ ε : Type} (reg : Registerer R) (p : Process R) (es : List (Event κ ρ ε)) :
    Process R :=
  es.foldl (step reg) p

/-- State of a process that created its first wrapper with `opts0` in the
initial state and then went through the history `es`; a wrapped function
exists only in such states. -/
def reached {R κ ρ ε : Type} (reg : Registerer R) (r0 : R) (opts0 : List OptionFunc)
    (es : List (Event κ ρ ε)) : Process R :=
  run reg (NewMetricsWrapper reg opts0 (Process.init r0)).2 es

/-! ## Readings of the state -/

/-- Value of the request counter for a label-value tuple (0 while the counter
is not constructed). -/
def requestCount (m : metricsDef) (lvs : List String) : Nat :=
  match m.opsCounter with
  | some c => c.values lvs
  | none => 0

/-- Observations of the latency summary for a label-value tuple. -/
def summaryObservations (m : metricsDef) (lvs : List String) : List ℚ :=
  match m.timeCounterSummary with
  | some s => s.observations lvs
  | none => []

/-- Observations of the latency histogram for a label-value tuple. -/
def histogramObservations (m : metricsDef) (lvs : List String) : List ℚ :=
  match m.timeCounterHistogram with
  | some h => h.observations lvs
  | none => []

/-- Descriptors of the collectors constructed so far: counter, summary, histogram. -/
def constructed (m : metricsDef) : List Desc :=
  (m.opsCounter.map (fun c => (Collector.counter c).Describe)).toList ++
  (m.timeCounterSummary.map (fun s => (Collector.summary s).Describe)).toList ++
  (m.timeCounterHistogram.map (fun h => (Collector.histogram h).Describe)).toList

/-- All three collectors are constructed and declare 5, 4 and 4 label keys. -/
def Ready (m : metricsDef) : Prop :=
  ∃ c s h, m = ⟨some c, some s, some h⟩ ∧
    c.labelNames.length = 5 ∧ s.labelNames.length = 4 ∧ h.labelNames.length = 4

/-- Sum of the request counter over the two status values. -/
def requestTotal (m : metricsDef) (name version id endpoint : String) : Nat :=
  requestCount m [name, version, id, endpoint, "success"] +
  requestCount m [name, version, id, endpoint, "failure"]

/-- Whether an event is a completed invocation (the handler returned) through a
wrapper with the options `name`, `version`, `id` for a request of `endpoint`. -/
def completed {κ ρ ε : Type} (name version id endpoint : String) : Event κ ρ ε → Bool
  | .construct _ => false
  | .invoke w fn ctx req resp _ =>
    match (fn ctx req resp).2 with
    | .returned _ =>
      decide (w.options.Name = name ∧ w.options.Version = version ∧ w.options.ID = id ∧
        req.Endpoint = endpoint)
    | .panicked _ => false

/-- A handler that behaves as `fn` and also appends the arguments of each of
its calls to a list kept next to the response. -/
def recording {κ ρ ε : Type} (fn : HandlerFunc κ ρ ε) :
    HandlerFunc κ (ρ × List (κ × Request × ρ)) ε :=
  fun ctx req resp =>
    (((fn ctx req resp.1).1, resp.2 ++ [(ctx, req, resp.1)]), (fn ctx req resp.1).2)

/-- A sample history: 100 completed invocations through one wrapper named
"svc", 30 for endpoint "A" returning nil, 50 for endpoint "B" returning nil,
then 20 for endpoint "A" returning an error. -/
def hundredCalls : List (Event Unit Nat String) :=
  List.replicate 30 (Event.invoke ⟨⟨"svc", "", "", "", ""⟩⟩
    (fun _ _ resp => (resp + 1, Outcome.returned none)) () ⟨"S", "A", "A", "", ""⟩ 0 (1 / 2)) ++
  List.replicate 50 (Event.invoke ⟨⟨"svc", "", "", "", ""⟩⟩
    (fun _ _ resp => (resp + 1, Outcome.returned none)) () ⟨"S", "B", "B", "", ""⟩ 0 (1 / 2)) ++
  List.replicate 20 (Event.invoke ⟨⟨"svc", "", "", "", ""⟩⟩
    (fun _ _ resp => (resp, Outcome.returned (some "boom"))) () ⟨"S", "A", "A", "", ""⟩ 0
    (1 / 2))

/-! ## Option lists as data -/

/-- A call of one of the five exported option constructors, as data. -/
inductive OptionCall where
  | name (s : String)
  | version (s : String)
  | id (s : String)
  | metricsPrefix (s : String)
  | metricsLabelPrefix (s : String)
deriving DecidableEq, Repr

/-- The option a constructor call yields. -/
def OptionCall.toOption : OptionCall → OptionFunc
  | .name s => ServiceName s
  | .version s => ServiceVersion s
  | .id s => ServiceID s
  | .metricsPrefix s => ServiceMetricsPrefix s
  | .metricsLabelPrefix s => ServiceMetricsLabelPrefix s

/-- Argument of a `ServiceName` call. -/
def OptionCall.nameArg : OptionCall → Option String
  | .name s => some s
  | _ => none

/-- Argument of a `ServiceVersion` call. -/
def OptionCall.versionArg : OptionCall → Option String
  | .version s => some s
  | _ => none

/-- Argument of a `ServiceID` call. -/
def OptionCall.idArg : OptionCall → Option String
  | .id s => some s
  | _ => none

/-- Argument of a `ServiceMetricsPrefix` call. -/
def OptionCall.metricsPrefixArg : OptionCall → Option String
  | .metricsPrefix s => some s
  | _ => none

/-- Argument of a `ServiceMetricsLabelPrefix` call. -/
def OptionCall.metricsLabelPrefixArg : OptionCall → Option String
  | .metricsLabelPrefix s => some s
  | _ => none

/-- Argument of the last call in the list that sets the field picked by `arg`,
the empty string when no call sets it. -/
def lastSet (arg : OptionCall → Option String) (calls : List OptionCall) : String :=
  ((calls.filterMap arg).getLast?).getD ""

/-! ## Basic facts -/

theorem registerCollector_metrics {R : Type} (reg : Registerer R) (p : Process R)
    (c : Collector) : (registerCollector reg p c).metrics = p.metrics := by
  unfold registerCollector
  split
  · rfl
  · split <;> rfl

theorem registerMetrics_metrics {R : Type} (reg : Registerer R) (mp lp : String)
    (p : Process R) :
    (registerMetrics reg mp lp p).metrics =
      ⟨some (p.metrics.opsCounter.getD (setupCounterVec "request_total"
          "Requests processed, partitioned by endpoint and status" mp lp)),
       some (p.metrics.timeCounterSummary.getD (setupSummaryVec "latency_microseconds"
          "Request latencies in microseconds, partitioned by endpoint" mp lp)),
       some (p.metrics.timeCounterHistogram.getD (setupHistogramVec "request_duration_seconds"
          "Request time in seconds, partitioned by endpoint" mp lp))⟩ := by
  simp only [registerMetrics, List.foldl, registerCollector_metrics]
  rcases p with ⟨⟨c, s, h⟩, r, l⟩
  cases c <;> cases s <;> cases h <;> rfl

theorem Ready_registerMetrics_init {R : Type} (reg : Registerer R) (mp lp : String) (r0 : R) :
    Ready (registerMetrics reg mp lp (Process.init r0)).metrics := by
  rw [registerMetrics_metrics]
  exact ⟨_, _, _, rfl, rfl, rfl, rfl⟩

theorem registerMetrics_metrics_of_Ready {R : Type} (reg : Registerer R) (mp lp : String)
    (p : Process R) (hp : Ready p.metrics) :
    (registerMetrics reg mp lp p).metrics = p.metrics := by
  rw [registerMetrics_metrics]
  obtain ⟨c, s, h, hm, -, -, -⟩ := hp
  rw [hm]
  rfl

theorem incOpsCounter_ready (w : metricsHandler) (endpoint status : String)
    (c : CounterVec) (s : SummaryVec) (h : HistogramVec) (hc : c.labelNames.length = 5) :
    incOpsCounter w endpoint status ⟨some c, some s, some h⟩ =
      (⟨some (c.Inc (counterLabelValues w endpoint status)), some s, some h⟩, none) := by
  simp [incOpsCounter, WithLabelValues, counterLabelValues, hc]

theorem observer_ready (w : metricsHandler) (endpoint : String) (v : ℚ)
    (c : CounterVec) (s : SummaryVec) (h : HistogramVec)
    (hs : s.labelNames.length = 4) (hh : h.labelNames.length = 4) :
    observer w endpoint v ⟨some c, some s, some h⟩ =
      (⟨some c, some (s.Observe (latencyLabelValues w endpoint) (v * 1000000)),
        some (h.Observe (latencyLabelValues w endpoint) v)⟩, none) := by
  simp [observer, WithLabelValues, latencyLabelValues, hs, hh]

/-- A wrapped call in a state with all collectors constructed: the handler's
response and outcome are passed on, the counter is incremented once when the
handler returned, and both latency collectors observe once. -/
theorem metricsWrapper_ready {κ ρ ε : Type} (w : metricsHandler) (fn : HandlerFunc κ ρ ε)
    (ctx : κ) (req : Request) (resp : ρ) (v : ℚ)
    (c : CounterVec) (s : SummaryVec) (h : HistogramVec) (hc : c.labelNames.length = 5)
    (hs : s.labelNames.length = 4) (hh : h.labelNames.length = 4) :
    metricsWrapper w fn ctx req resp v ⟨some c, some s, some h⟩ =
      ⟨(fn ctx req resp).1, (fn ctx req resp).2,
        ⟨some (match (fn ctx req resp).2 with
            | .returned none => c.Inc (counterLabelValues w req.Endpoint "success")
            | .returned (some _) => c.Inc (counterLabelValues w req.Endpoint "failure")
            | .panicked _ => c),
          some (s.Observe (latencyLabelValues w req.Endpoint) (v * 1000000)),
          some (h.Observe (latencyLabelValues w req.Endpoint) v)⟩⟩ := by
  unfold metricsWrapper
  rcases hfn : fn ctx req resp with ⟨resp1, o⟩
  rcases o with (_ | e) | pv
  · simp [incOpsCounter_ready, observer_ready, hc, hs, hh, CounterVec.Inc]
  · simp [incOpsCounter_ready, observer_ready, hc, hs, hh, CounterVec.Inc]
  · simp [observer_ready, hs, hh]

/-! ## The invariant of a running process -/

theorem Ready_metricsWrapper {κ ρ ε : Type} (w : metricsHandler) (fn : HandlerFunc κ ρ ε)
    (ctx : κ) (req : Request) (resp : ρ) (v : ℚ) (m : metricsDef) (hm : Ready m) :
    Ready (metricsWrapper w fn ctx req resp v m).metrics := by
  obtain ⟨c, s, h, rfl, hc, hs, hh⟩ := hm
  rw [metricsWrapper_ready w fn ctx req resp v c s h hc hs hh]
  refine ⟨_, _, _, rfl, ?_, hs, hh⟩
  rcases (fn ctx req resp).2 with (_ | e) | pv <;> exact hc

theorem Ready_step {R κ ρ ε : Type} (reg : Registerer R) (p : Process R) (e : Event κ ρ ε)
    (hp : Ready p.metrics) : Ready (step reg p e).metrics := by
  cases e with
  | construct opts =>
    show Ready (registerMetrics reg _ _ p).metrics
    rw [registerMetrics_metrics_of_Ready reg _ _ p hp]
    exact hp
  | invoke w fn ctx req resp v => exact Ready_metricsWrapper w fn ctx req resp v _ hp

theorem Ready_run {R κ ρ ε : Type} (reg : Registerer R) (es : List (Event κ ρ ε))
    (p : Process R) (hp : Ready p.metrics) : Ready (run reg p es).metrics := by
  induction es generalizing p with
  | nil => exact hp
  | cons e es ih => exact ih _ (Ready_step reg p e hp)

theorem Ready_reached {R κ ρ ε : Type} (reg : Registerer R) (r0 : R) (opts0 : List OptionFunc)
    (es : List (Event κ ρ ε)) : Ready (reached reg r0 opts0 es).metrics :=
  Ready_run reg es _ (Ready_registerMetrics_init reg _ _ r0)

theorem constructed_registerMetrics_init {R : Type} (reg : Registerer R) (mp lp : String)
    (r0 : R) :
    constructed (registerMetrics reg mp lp (Process.init r0)).metrics =
      [⟨.counter, mp ++ "request_total",
          [lp ++ "name", lp ++ "version", lp ++ "id", lp ++ "endpoint", lp ++ "status"]⟩,
       ⟨.summary, mp ++ "latency_microseconds",
          [lp ++ "name", lp ++ "version", lp ++ "id", lp ++ "endpoint"]⟩,
       ⟨.histogram, mp ++ "request_duration_seconds",
          [lp ++ "name", lp ++ "version", lp ++ "id", lp ++ "endpoint"]⟩] := by
  rw [registerMetrics_metrics]
  rfl

theorem constructed_step {R κ ρ ε : Type} (reg : Registerer R) (p : Process R)
    (e : Event κ ρ ε) (hp : Ready p.metrics) :
    constructed (step reg p e).metrics = constructed p.metrics := by
  cases e with
  | construct opts =>
    show constructed (registerMetrics reg _ _ p).metrics = _
    rw [registerMetrics_metrics_of_Ready reg _ _ p hp]
  | invoke w fn ctx req resp v =>
    obtain ⟨c, s, h, hm, hc, hs, hh⟩ := hp
    show constructed (metricsWrapper w fn ctx req resp v p.metrics).metrics = _
    rw [hm, metricsWrapper_ready w fn ctx req resp v c s h hc hs hh]
    rcases (fn ctx req resp).2 with (_ | err) | pv <;> rfl

theorem constructed_run {R κ ρ ε : Type} (reg : Registerer R) (es : List (Event κ ρ ε))
    (p : Process R) (hp : Ready p.metrics) :
    constructed (run reg p es).metrics = constructed p.metrics := by
  induction es generalizing p with
  | nil => rfl
  | cons e es ih =>
    show constructed (run reg (step reg p e) es).metrics = _
    rw [ih _ (Ready_step reg p e hp), constructed_step reg p e hp]

/-! ## Counting requests -/

theorem requestTotal_step {R κ ρ ε : Type} (reg : Registerer R) (p : Process R)
    (e : Event κ ρ ε) (hp : Ready p.metrics) (name version id endpoint : String) :
    requestTotal (step reg p e).metrics name version id endpoint =
      requestTotal p.metrics name version id endpoint +
        (if completed name version id endpoint e then 1 else 0) := by
  cases e with
  | construct opts =>
    show requestTotal (registerMetrics reg _ _ p).metrics _ _ _ _ = _
    rw [registerMetrics_metrics_of_Ready reg _ _ p hp]
    simp [completed]
  | invoke w fn ctx req resp v =>
    obtain ⟨c, s, h, hm, hc, hs, hh⟩ := hp
    show requestTotal (metricsWrapper w fn ctx req resp v p.metrics).metrics _ _ _ _ = _
    rw [hm, metricsWrapper_ready w fn ctx req resp v c s h hc hs hh]
    rcases hfn : (fn ctx req resp).2 with (_ | err) | pv
    · simp only [completed, hfn, requestTotal, requestCount, CounterVec.Inc,
        counterLabelValues, Function.update_apply]
      by_cases hw : w.options.Name = name ∧ w.options.Version = version ∧
          w.options.ID = id ∧ req.Endpoint = endpoint
      · obtain ⟨h1, h2, h3, h4⟩ := hw
        subst h1 h2 h3 h4
        simp
        omega
      · have : ¬ ([name, version, id, endpoint, "success"] =
            [w.options.Name, w.options.Version, w.options.ID, req.Endpoint, "success"]) := by
          intro heq
          simp only [List.cons.injEq, and_true] at heq
          exact hw ⟨heq.1.symm, heq.2.1.symm, heq.2.2.1.symm, heq.2.2.2.symm⟩
        simp [this, hw]
    · simp only [completed, hfn, requestTotal, requestCount, CounterVec.Inc,
        counterLabelValues, Function.update_apply]
      by_cases hw : w.options.Name = name ∧ w.options.Version = version ∧
          w.options.ID = id ∧ req.Endpoint = endpoint
      · obtain ⟨h1, h2, h3, h4⟩ := hw
        subst h1 h2 h3 h4
        simp
        omega
      · have : ¬ ([name, version, id, endpoint, "failure"] =
            [w.options.Name, w.options.Version, w.options.ID, req.Endpoint, "failure"]) := by
          intro heq
          simp only [List.cons.injEq, and_true] at heq
          exact hw ⟨heq.1.symm, heq.2.1.symm, heq.2.2.1.symm, heq.2.2.2.symm⟩
        simp [this, hw]
    · simp [completed, hfn, requestTotal, requestCount]

theorem requestTotal_run {R κ ρ ε : Type} (reg : Registerer R) (es : List (Event κ ρ ε))
    (p : Process R) (hp : Ready p.metrics) (name version id endpoint : String) :
    requestTotal (run reg p es).metrics name version id endpoint =
      requestTotal p.metrics name version id endpoint +
        es.countP (completed name version id endpoint) := by
  induction es generalizing p with
  | nil => simp [run]
  | cons e es ih =>
    show requestTotal (run reg (step reg p e) es).metrics _ _ _ _ = _
    rw [ih _ (Ready_step reg p e hp), requestTotal_step reg p e hp, List.countP_cons]
    omega

/-! ## Registration with a duplicate-rejecting backend -/

theorem append_left_cancel_string (p a b : String) (h : p ++ a = p ++ b) : a = b := by
  have h1 : (p ++ a).data = (p ++ b).data := by rw [h]
  rw [String.data_append, String.data_append] at h1
  exact String.ext (List.append_cancel_left h1)

theorem latency_ne_duration (p : String) :
    p ++ "latency_microseconds" ≠ p ++ "request_duration_seconds" := by
  intro h
  have h2 := append_left_cancel_string p _ _ h
  revert h2
  decide

theorem registerMetrics_init_eq (mp lp : String) :
    registerMetrics Register mp lp (Process.init []) =
      { metrics := ⟨some (setupCounterVec "request_total"
            "Requests processed, partitioned by endpoint and status" mp lp),
          some (setupSummaryVec "latency_microseconds"
            "Request latencies in microseconds, partitioned by endpoint" mp lp),
          some (setupHistogramVec "request_duration_seconds"
            "Request time in seconds, partitioned by endpoint" mp lp)⟩,
        registry :=
          [⟨.counter, mp ++ "request_total",
              [lp ++ "name", lp ++ "version", lp ++ "id", lp ++ "endpoint", lp ++ "status"]⟩,
           ⟨.summary, mp ++ "latency_microseconds",
              [lp ++ "name", lp ++ "version", lp ++ "id", lp ++ "endpoint"]⟩,
           ⟨.histogram, mp ++ "request_duration_seconds",
              [lp ++ "name", lp ++ "version", lp ++ "id", lp ++ "endpoint"]⟩],
        log := [] } := by
  have hne := latency_ne_duration mp
  simp [registerMetrics, Process.init, registerCollector, Register, Collector.Describe,
    setupCounterVec, setupSummaryVec, setupHistogramVec, NewCounterVec, NewSummaryVec,
    NewHistogramVec, hne]

theorem registerMetrics_again (mp lp mp2 lp2 : String) :
    registerMetrics Register mp2 lp2 (registerMetrics Register mp lp (Process.init [])) =
      registerMetrics Register mp lp (Process.init []) := by
  rw [registerMetrics_init_eq]
  simp [registerMetrics, registerCollector, Register, Collector.Describe,
    setupCounterVec, setupSummaryVec, setupHistogramVec, NewCounterVec, NewSummaryVec,
    NewHistogramVec, RegisterError.isAlreadyRegistered]

theorem registerMetrics_iterate (mp lp : String) (n : Nat) :
    (registerMetrics Register mp lp)^[n + 1] (Process.init []) =
      registerMetrics Register mp lp (Process.init []) := by
  induction n with
  | zero => rfl
  | succ n ih =>
    rw [Function.iterate_succ_apply', ih, registerMetrics_again]

/-! ## Option lists -/

theorem getLast?_cons_getD (a d : String) (l : List String) :
    ((a :: l).getLast?).getD d = (l.getLast?).getD a := by
  cases l with
  | nil => rfl
  | cons b l =>
    rw [List.getLast?_cons_cons, List.getLast?_eq_getLast _ (List.cons_ne_nil b l)]
    rfl

theorem foldl_toOption (calls : List OptionCall) (o : Options) :
    (calls.map OptionCall.toOption).foldl (fun options opt => opt options) o =
      ⟨((calls.filterMap OptionCall.nameArg).getLast?).getD o.Name,
       ((calls.filterMap OptionCall.versionArg).getLast?).getD o.Version,
       ((calls.filterMap OptionCall.idArg).getLast?).getD o.ID,
       ((calls.filterMap OptionCall.metricsPrefixArg).getLast?).getD o.MetricsPrefix,
       ((calls.filterMap OptionCall.metricsLabelPrefixArg).getLast?).getD
         o.MetricsLabelPrefix⟩ := by
  induction calls generalizing o with
  | nil => rfl
  | cons c cs ih =>
    rw [List.map_cons, List.foldl_cons, ih]
    cases c <;>
      simp [OptionCall.toOption, OptionCall.nameArg, OptionCall.versionArg, OptionCall.idArg,
        OptionCall.metricsPrefixArg, OptionCall.metricsLabelPrefixArg, ServiceName,
        ServiceVersion, ServiceID, ServiceMetricsPrefix, ServiceMetricsLabelPrefix,
        List.filterMap_cons, getLast?_cons_getD]

/-! ## The instrumentation wrapper is transparent -/

/-- Claim C1: in every state in which a wrapped function can exist (a first
`NewMetricsWrapper` in the initial state, then any history), for every handler
`fn`, every wrapper options `w` and every `(ctx, req, resp)`, the wrapped call
ends exactly as `fn ctx req resp` ends (the same returned error, nil or not),
leaves the response `fn` alone produces, and calls `fn` exactly once with the
same `ctx`, `req` and `resp`: a handler that records its calls has recorded
exactly that one call afterwards. -/
theorem metricsWrapper_passes_through {R κ0 ρ0 ε0 κ ρ ε : Type} (reg : Registerer R) (r0 : R)
    (opts0 : List OptionFunc) (es : List (Event κ0 ρ0 ε0)) (w : metricsHandler)
    (fn : HandlerFunc κ ρ ε) (ctx : κ) (req : Request) (resp : ρ) (v : ℚ)
    (calls : List (κ × Request × ρ)) :
    (metricsWrapper w fn ctx req resp v (reached reg r0 opts0 es).metrics).outcome
        = (fn ctx req resp).2 ∧
    (metricsWrapper w fn ctx req resp v (reached reg r0 opts0 es).metrics).resp
        = (fn ctx req resp).1 ∧
    (metricsWrapper w (recording fn) ctx req (resp, calls) v
        (reached reg r0 opts0 es).metrics).resp.2 = calls ++ [(ctx, req, resp)] := by
  obtain ⟨c, s, h, hm, hc, hs, hh⟩ := Ready_reached reg r0 opts0 es
  rw [hm, metricsWrapper_ready w fn ctx req resp v c s h hc hs hh,
    metricsWrapper_ready w (recording fn) ctx req (resp, calls) v c s h hc hs hh]
  exact ⟨rfl, rfl, rfl⟩

/-- Claim C2: for a wrapper with options (Name, Version, ID) and an invocation
with endpoint `e` whose handler returned `err`, the request counter of the
tuple (Name, Version, ID, e, s), with `s` "success" for a nil `err` and
"failure" otherwise, grows by exactly 1 and the counter of every other label
tuple, the one with the other status included, is unchanged. -/
theorem requestCount_metricsWrapper {R κ0 ρ0 ε0 κ ρ ε : Type} (reg : Registerer R) (r0 : R)
    (opts0 : List OptionFunc) (es : List (Event κ0 ρ0 ε0)) (w : metricsHandler)
    (fn : HandlerFunc κ ρ ε) (ctx : κ) (req : Request) (resp : ρ) (v : ℚ) (err : Option ε)
    (hfn : (fn ctx req resp).2 = .returned err) (lvs : List String) :
    requestCount (metricsWrapper w fn ctx req resp v (reached reg r0 opts0 es).metrics).metrics lvs
      = if lvs = [w.options.Name, w.options.Version, w.options.ID, req.Endpoint,
                  if err.isNone then "success" else "failure"]
        then requestCount (reached reg r0 opts0 es).metrics lvs + 1
        else requestCount (reached reg r0 opts0 es).metrics lvs := by
  obtain ⟨c, s, h, hm, hc, hs, hh⟩ := Ready_reached reg r0 opts0 es
  rw [hm, metricsWrapper_ready w fn ctx req resp v c s h hc hs hh, hfn]
  cases err with
  | none =>
    simp only [requestCount, CounterVec.Inc, counterLabelValues, Function.update_apply,
      Option.isNone_none, if_true]
    split_ifs with h1 <;> simp [h1]
  | some e =>
    simp only [requestCount, CounterVec.Inc, counterLabelValues, Function.update_apply]
    simp only [Option.isNone_some, Bool.false_eq_true, if_false]
    split_ifs with h1 <;> simp [h1]

/-- Witness of C2: options {Name:"svc", Version:"v1", ID:"abc"}, endpoint
"Greeter.Hello", a handler returning nil, in the state right after the wrapper
was created: the "success" tuple goes to 1 and the "failure" tuple stays 0. -/
theorem requestCount_metricsWrapper_witness :
    ((fun (_ : Unit) (_ : Request) (resp : String) =>
        (resp ++ "!", (Outcome.returned none : Outcome String))) ()
        ⟨"Greeter", "Hello", "Greeter.Hello", "application/json", ""⟩ "hi").2
      = .returned none ∧
    requestCount (metricsWrapper ⟨⟨"svc", "v1", "abc", "", ""⟩⟩
        (fun (_ : Unit) (_ : Request) (resp : String) =>
          (resp ++ "!", (Outcome.returned none : Outcome String))) ()
        ⟨"Greeter", "Hello", "Greeter.Hello", "application/json", ""⟩ "hi" (1 / 100)
        (reached Register [] [ServiceName "svc", ServiceVersion "v1", ServiceID "abc"]
          ([] : List (Event Unit String String))).metrics).metrics
        ["svc", "v1", "abc", "Greeter.Hello", "success"] = 1 ∧
    requestCount (metricsWrapper ⟨⟨"svc", "v1", "abc", "", ""⟩⟩
        (fun (_ : Unit) (_ : Request) (resp : String) =>
          (resp ++ "!", (Outcome.returned none : Outcome String))) ()
        ⟨"Greeter", "Hello", "Greeter.Hello", "application/json", ""⟩ "hi" (1 / 100)
        (reached Register [] [ServiceName "svc", ServiceVersion "v1", ServiceID "abc"]
          ([] : List (Event Unit String String))).metrics).metrics
        ["svc", "v1", "abc", "Greeter.Hello", "failure"] = 0 := by
  refine ⟨rfl, ?_, ?_⟩
  · rw [requestCount_metricsWrapper Register []
      [ServiceName "svc", ServiceVersion "v1", ServiceID "abc"]
      ([] : List (Event Unit String String)) ⟨⟨"svc", "v1", "abc", "", ""⟩⟩
      (fun (_ : Unit) (_ : Request) (resp : String) =>
        (resp ++ "!", (Outcome.returned none : Outcome String))) ()
      ⟨"Greeter", "Hello", "Greeter.Hello", "application/json", ""⟩ "hi" (1 / 100) none rfl
      ["svc", "v1", "abc", "Greeter.Hello", "success"]]
    simp [reached, run, NewMetricsWrapper, registerMetrics_metrics, requestCount, Process.init,
      setupCounterVec, NewCounterVec]
  · rw [requestCount_metricsWrapper Register []
      [ServiceName "svc", ServiceVersion "v1", ServiceID "abc"]
      ([] : List (Event Unit String String)) ⟨⟨"svc", "v1", "abc", "", ""⟩⟩
      (fun (_ : Unit) (_ : Request) (resp : String) =>
        (resp ++ "!", (Outcome.returned none : Outcome String))) ()
      ⟨"Greeter", "Hello", "Greeter.Hello", "application/json", ""⟩ "hi" (1 / 100) none rfl
      ["svc", "v1", "abc", "Greeter.Hello", "failure"]]
    simp [reached, run, NewMetricsWrapper, registerMetrics_metrics, requestCount, Process.init,
      setupCounterVec, NewCounterVec]

/-- Claim C5: every invocation of a wrapped function, whatever way its handler
ends, records exactly one observation in the latency summary and exactly one
in the latency histogram, both under (Name, Version, ID, endpoint); the
histogram receives the elapsed seconds `v`, the summary `v * 1000000`, and the
observations of every other label tuple of either collector are unchanged. -/
theorem latency_metricsWrapper {R κ0 ρ0 ε0 κ ρ ε : Type} (reg : Registerer R) (r0 : R)
    (opts0 : List OptionFunc) (es : List (Event κ0 ρ0 ε0)) (w : metricsHandler)
    (fn : HandlerFunc κ ρ ε) (ctx : κ) (req : Request) (resp : ρ) (v : ℚ) (lvs : List String) :
    summaryObservations
        (metricsWrapper w fn ctx req resp v (reached reg r0 opts0 es).metrics).metrics lvs
      = (if lvs = [w.options.Name, w.options.Version, w.options.ID, req.Endpoint]
        then summaryObservations (reached reg r0 opts0 es).metrics lvs ++ [v * 1000000]
        else summaryObservations (reached reg r0 opts0 es).metrics lvs) ∧
    histogramObservations
        (metricsWrapper w fn ctx req resp v (reached reg r0 opts0 es).metrics).metrics lvs
      = (if lvs = [w.options.Name, w.options.Version, w.options.ID, req.Endpoint]
        then histogramObservations (reached reg r0 opts0 es).metrics lvs ++ [v]
        else histogramObservations (reached reg r0 opts0 es).metrics lvs) := by
  obtain ⟨c, s, h, hm, hc, hs, hh⟩ := Ready_reached reg r0 opts0 es
  rw [hm, metricsWrapper_ready w fn ctx req resp v c s h hc hs hh]
  simp only [summaryObservations, histogramObservations, SummaryVec.Observe,
    HistogramVec.Observe, latencyLabelValues, Function.update_apply]
  constructor <;> split_ifs with h1 <;> simp [h1]

/-- Claim C9: after any history of events (wrapper constructions and wrapped
calls with arbitrary handler outcomes, in any order), for every (Name,
Version, ID) and endpoint `e` the request counter summed over the statuses
"success" and "failure" equals the number of completed invocations in the
history through a wrapper with these options for endpoint `e`: no increment is
lost or duplicated. -/
theorem requestTotal_reached {R κ ρ ε : Type} (reg : Registerer R) (r0 : R)
    (opts0 : List OptionFunc) (es : List (Event κ ρ ε)) (name version id endpoint : String) :
    requestCount (reached reg r0 opts0 es).metrics [name, version, id, endpoint, "success"] +
    requestCount (reached reg r0 opts0 es).metrics [name, version, id, endpoint, "failure"] =
      es.countP (completed name version id endpoint) := by
  have h := requestTotal_run reg es _ (Ready_registerMetrics_init reg
    (applyOptions opts0).MetricsPrefix (applyOptions opts0).MetricsLabelPrefix r0)
    name version id endpoint
  have h0 : requestTotal (registerMetrics reg (applyOptions opts0).MetricsPrefix
      (applyOptions opts0).MetricsLabelPrefix (Process.init r0)).metrics
      name version id endpoint = 0 := by
    rw [registerMetrics_metrics]
    rfl
  rw [h0, Nat.zero_add] at h
  exact h

/-- Witness of C9: after the 100 invocations of `hundredCalls` the counter
summed over the statuses is 50 for endpoint "A" and 50 for endpoint "B". -/
theorem requestTotal_reached_witness :
    requestCount (reached Register [] [ServiceName "svc"] hundredCalls).metrics
        ["svc", "", "", "A", "success"] +
      requestCount (reached Register [] [ServiceName "svc"] hundredCalls).metrics
        ["svc", "", "", "A", "failure"] = 50 ∧
    requestCount (reached Register [] [ServiceName "svc"] hundredCalls).metrics
        ["svc", "", "", "B", "success"] +
      requestCount (reached Register [] [ServiceName "svc"] hundredCalls).metrics
        ["svc", "", "", "B", "failure"] = 50 := by
  rw [requestTotal_reached, requestTotal_reached]
  simp [hundredCalls, List.countP_append, List.countP_replicate, completed]

/-! ## The collector registry -/

/-- Claim C3: from the initial process state with an empty registry of a
backend that rejects a collector whose name+labels is already registered,
`n ≥ 1` calls of `registerMetrics` with identical prefixes end in the state one
call ends in; the registry then holds exactly one request counter, one latency
summary and one latency histogram, and nothing was logged. -/
theorem registerMetrics_idempotent (metricPrefix labelPrefix : String) (n : Nat)
    (hn : 1 ≤ n) :
    (registerMetrics Register metricPrefix labelPrefix)^[n] (Process.init []) =
      registerMetrics Register metricPrefix labelPrefix (Process.init []) ∧
    ((registerMetrics Register metricPrefix labelPrefix)^[n] (Process.init [])).registry =
      [⟨.counter, metricPrefix ++ "request_total",
          [labelPrefix ++ "name", labelPrefix ++ "version", labelPrefix ++ "id",
           labelPrefix ++ "endpoint", labelPrefix ++ "status"]⟩,
       ⟨.summary, metricPrefix ++ "latency_microseconds",
          [labelPrefix ++ "name", labelPrefix ++ "version", labelPrefix ++ "id",
           labelPrefix ++ "endpoint"]⟩,
       ⟨.histogram, metricPrefix ++ "request_duration_seconds",
          [labelPrefix ++ "name", labelPrefix ++ "version", labelPrefix ++ "id",
           labelPrefix ++ "endpoint"]⟩] ∧
    ((registerMetrics Register metricPrefix labelPrefix)^[n] (Process.init [])).log = [] := by
  obtain ⟨k, rfl⟩ : ∃ k, n = k + 1 := ⟨n - 1, by omega⟩
  rw [registerMetrics_iterate]
  refine ⟨rfl, ?_, ?_⟩
  · rw [registerMetrics_init_eq]
  · rw [registerMetrics_init_eq]

/-- Witness of C3: three calls with empty prefixes. -/
theorem registerMetrics_idempotent_witness :
    1 ≤ 3 ∧
    (registerMetrics Register "" "")^[3] (Process.init []) =
      registerMetrics Register "" "" (Process.init []) ∧
    ((registerMetrics Register "" "")^[3] (Process.init [])).registry =
      [⟨.counter, "request_total", ["name", "version", "id", "endpoint", "status"]⟩,
       ⟨.summary, "latency_microseconds", ["name", "version", "id", "endpoint"]⟩,
       ⟨.histogram, "request_duration_seconds", ["name", "version", "id", "endpoint"]⟩] ∧
    ((registerMetrics Register "" "")^[3] (Process.init [])).log = [] :=
  ⟨by decide, registerMetrics_idempotent "" "" 3 (by decide)⟩

/-- Claim C4: the collectors the first `registerMetrics` call constructs are
named metricPrefix++"request_total" (counter), metricPrefix++"latency_microseconds"
(summary) and metricPrefix++"request_duration_seconds" (histogram); the counter
declares the label keys labelPrefix++"name", "version", "id", "endpoint",
"status" in this order and the summary and histogram the first four.  With
empty prefixes the names and keys are exactly the bare strings. -/
theorem registerMetrics_names {R : Type} (reg : Registerer R) (r0 : R)
    (metricPrefix labelPrefix : String) :
    constructed (registerMetrics reg metricPrefix labelPrefix (Process.init r0)).metrics =
      [⟨.counter, metricPrefix ++ "request_total",
          [labelPrefix ++ "name", labelPrefix ++ "version", labelPrefix ++ "id",
           labelPrefix ++ "endpoint", labelPrefix ++ "status"]⟩,
       ⟨.summary, metricPrefix ++ "latency_microseconds",
          [labelPrefix ++ "name", labelPrefix ++ "version", labelPrefix ++ "id",
           labelPrefix ++ "endpoint"]⟩,
       ⟨.histogram, metricPrefix ++ "request_duration_seconds",
          [labelPrefix ++ "name", labelPrefix ++ "version", labelPrefix ++ "id",
           labelPrefix ++ "endpoint"]⟩] ∧
    constructed (registerMetrics reg "" "" (Process.init r0)).metrics =
      [⟨.counter, "request_total", ["name", "version", "id", "endpoint", "status"]⟩,
       ⟨.summary, "latency_microseconds", ["name", "version", "id", "endpoint"]⟩,
       ⟨.histogram, "request_duration_seconds", ["name", "version", "id", "endpoint"]⟩] :=
  ⟨constructed_registerMetrics_init reg metricPrefix labelPrefix r0,
   constructed_registerMetrics_init reg "" "" r0⟩

/-- Claim C10: once `registerMetrics` has run with prefixes (m, l), then after
any further history a call of `registerMetrics` with any prefixes (m2, l2)
leaves the three collectors as they are, and their names and label keys are
still those built from (m, l). -/
theorem registerMetrics_first_writer_wins {R κ ρ ε : Type} (reg : Registerer R) (r0 : R)
    (m l : String) (es : List (Event κ ρ ε)) (m2 l2 : String) :
    (registerMetrics reg m2 l2
        (run reg (registerMetrics reg m l (Process.init r0)) es)).metrics =
      (run reg (registerMetrics reg m l (Process.init r0)) es).metrics ∧
    constructed (registerMetrics reg m2 l2
        (run reg (registerMetrics reg m l (Process.init r0)) es)).metrics =
      [⟨.counter, m ++ "request_total",
          [l ++ "name", l ++ "version", l ++ "id", l ++ "endpoint", l ++ "status"]⟩,
       ⟨.summary, m ++ "latency_microseconds",
          [l ++ "name", l ++ "version", l ++ "id", l ++ "endpoint"]⟩,
       ⟨.histogram, m ++ "request_duration_seconds",
          [l ++ "name", l ++ "version", l ++ "id", l ++ "endpoint"]⟩] := by
  have hr := Ready_run reg es _ (Ready_registerMetrics_init reg m l r0)
  have h1 := registerMetrics_metrics_of_Ready reg m2 l2 _ hr
  refine ⟨h1, ?_⟩
  rw [h1, constructed_run reg es _ (Ready_registerMetrics_init reg m l r0),
    constructed_registerMetrics_init]

/-- Claim C7, evaluated on the code: on a second `registerMetrics` in the same
process the backend rejects the counter with an `AlreadyRegisteredError`; the
error is swallowed and NO line is logged for it (the log of the whole second
call stays empty), whereas an error that is not an `AlreadyRegisteredError` is
the one that gets the line "Promethus collector already registered: ...". -/
theorem alreadyRegistered_is_not_logged :
    (Register (registerMetrics Register "" "" (Process.init [])).registry
        (.counter (setupCounterVec "request_total"
          "Requests processed, partitioned by endpoint and status" "" ""))).2 =
      some (.AlreadyRegisteredError "duplicate metrics collector registration attempted") ∧
    (registerCollector Register (registerMetrics Register "" "" (Process.init []))
        (.counter (setupCounterVec "request_total"
          "Requests processed, partitioned by endpoint and status" "" ""))).log = [] ∧
    (registerMetrics Register "" "" (registerMetrics Register "" "" (Process.init []))).log
      = [] ∧
    (registerCollector (fun r _ => (r, some (.other "descriptor is invalid")))
        (Process.init ([] : List Desc))
        (.counter (setupCounterVec "request_total"
          "Requests processed, partitioned by endpoint and status" "" ""))).log =
      ["Promethus collector already registered: descriptor is invalid"] := by
  refine ⟨?_, ?_, ?_, ?_⟩
  · rw [registerMetrics_init_eq]
    simp [Register, Collector.Describe, setupCounterVec, NewCounterVec]
  · rw [registerMetrics_init_eq]
    simp [registerCollector, Register, Collector.Describe, setupCounterVec, NewCounterVec,
      RegisterError.isAlreadyRegistered]
  · rw [registerMetrics_again, registerMetrics_init_eq]
  · simp [registerCollector, Process.init, RegisterError.isAlreadyRegistered,
      RegisterError.Error]

/-- Claim C8: for every option list, every backend registerer (whatever its
`Register` calls answer) and every process state, `NewMetricsWrapper` gives the
handler with the folded options and leaves all three collectors constructed;
and in every state in which a wrapped function can be called the counter
declares 5 label keys and gets 5 label values, the summary and the histogram
declare 4 and get 4, so that the wrapped call ends as the handler ends: it
panics only if the handler does. -/
theorem instrumentation_never_fails {R κ0 ρ0 ε0 κ ρ ε : Type} (reg : Registerer R)
    (opts : List OptionFunc) (p : Process R) (r0 : R) (opts0 : List OptionFunc)
    (es : List (Event κ0 ρ0 ε0)) (w : metricsHandler) (fn : HandlerFunc κ ρ ε) (ctx : κ)
    (req : Request) (resp : ρ) (v : ℚ) :
    ((NewMetricsWrapper reg opts p).1 = ⟨applyOptions opts⟩ ∧
      (NewMetricsWrapper reg opts p).2.metrics.opsCounter.isSome = true ∧
      (NewMetricsWrapper reg opts p).2.metrics.timeCounterSummary.isSome = true ∧
      (NewMetricsWrapper reg opts p).2.metrics.timeCounterHistogram.isSome = true) ∧
    (∃ c s h, (reached reg r0 opts0 es).metrics = ⟨some c, some s, some h⟩ ∧
      (∀ status, (counterLabelValues w req.Endpoint status).length = c.labelNames.length) ∧
      c.labelNames.length = 5 ∧
      (latencyLabelValues w req.Endpoint).length = s.labelNames.length ∧
      s.labelNames.length = 4 ∧
      (latencyLabelValues w req.Endpoint).length = h.labelNames.length ∧
      h.labelNames.length = 4) ∧
    (metricsWrapper w fn ctx req resp v (reached reg r0 opts0 es).metrics).outcome
        = (fn ctx req resp).2 := by
  refine ⟨⟨rfl, ?_, ?_, ?_⟩, ?_, ?_⟩
  · show (registerMetrics reg _ _ p).metrics.opsCounter.isSome = true
    rw [registerMetrics_metrics]
    rfl
  · show (registerMetrics reg _ _ p).metrics.timeCounterSummary.isSome = true
    rw [registerMetrics_metrics]
    rfl
  · show (registerMetrics reg _ _ p).metrics.timeCounterHistogram.isSome = true
    rw [registerMetrics_metrics]
    rfl
  · obtain ⟨c, s, h, hm, hc, hs, hh⟩ := Ready_reached reg r0 opts0 es
    exact ⟨c, s, h, hm, fun _ => hc.symm, hc, hs.symm, hs, hh.symm, hh⟩
  · obtain ⟨c, s, h, hm, hc, hs, hh⟩ := Ready_reached reg r0 opts0 es
    rw [hm, metricsWrapper_ready w fn ctx req resp v c s h hc hs hh]

/-! ## Options -/

/-- Claim C6: the options of the handler `NewMetricsWrapper` builds are the
left-to-right fold of the option list over the all-empty record; for a list of
calls of the five option constructors each field is the argument of the last
call that sets it, and the empty string when no call sets it; each of the five
constructors changes its own field only. -/
theorem NewMetricsWrapper_options {R : Type} (reg : Registerer R) (p : Process R)
    (opts : List OptionFunc) (calls : List OptionCall) (s : String) (o : Options) :
    (NewMetricsWrapper reg opts p).1.options =
      opts.foldl (fun options opt => opt options) ⟨"", "", "", "", ""⟩ ∧
    (NewMetricsWrapper reg (calls.map OptionCall.toOption) p).1.options =
      ⟨lastSet OptionCall.nameArg calls, lastSet OptionCall.versionArg calls,
       lastSet OptionCall.idArg calls, lastSet OptionCall.metricsPrefixArg calls,
       lastSet OptionCall.metricsLabelPrefixArg calls⟩ ∧
    ServiceName s o = ⟨s, o.Version, o.ID, o.MetricsPrefix, o.MetricsLabelPrefix⟩ ∧
    ServiceVersion s o = ⟨o.Name, s, o.ID, o.MetricsPrefix, o.MetricsLabelPrefix⟩ ∧
    ServiceID s o = ⟨o.Name, o.Version, s, o.MetricsPrefix, o.MetricsLabelPrefix⟩ ∧
    ServiceMetricsPrefix s o = ⟨o.Name, o.Version, o.ID, s, o.MetricsLabelPrefix⟩ ∧
    ServiceMetricsLabelPrefix s o = ⟨o.Name, o.Version, o.ID, o.MetricsPrefix, s⟩ := by
  refine ⟨rfl, ?_, rfl, rfl, rfl, rfl, rfl⟩
  show (calls.map OptionCall.toOption).foldl (fun options opt => opt options)
    ⟨"", "", "", "", ""⟩ = _
  rw [foldl_toOption]
  rfl

end globalMonitoring
